import Mathlib

/-!
Verification of the researcher-search ranking and post-filtering pipeline
(`real_search.py`) against its natural-language specification.

The Python code is shallowly embedded: researcher rows and result dictionaries
become structures, the external services (BigQuery, the embedding model and the
text-generation models) become oracle functions collected in an `Env` record
returning `Except String`, and every pure computation (the young-researcher
classifier, query-expansion parsing, dimension adjustment, the relevance-score
expression denoted by the generated SQL, the summary fallback logic and the
orchestration control flow of `perform_real_search`) is translated function by
function.  Python strings are modelled as `String` / `List Char`; `None` text
fields are modelled as `""` (the code itself coerces them with `or ''`, and a
SQL `NULL` field fails every `LIKE '%kw%'` test exactly as `""` does).  The
wall-clock year used by the classifier's age heuristics is an injected
parameter `current_year`, and wall-clock execution times are omitted from the
response model.
-/

namespace ResearcherSearch

/-! ### String primitives

Python-compatible helpers over `List Char`.  `pyWhitespace` covers the ASCII
whitespace class plus the Unicode whitespace characters that realistically
occur in the data (ideographic space, NBSP, NEL); Python's `str.strip`,
`str.split` and the regex class `\s` use the full Unicode set, of which this is
the relevant subset.  `Char.toLower` lowercases ASCII letters only, which
matches `str.lower` on the ASCII-plus-Japanese data handled here.
-/

def pyWhitespace (c : Char) : Bool :=
  c = ' ' || c = '\t' || c = '\n' || c = '\r' || c = '\x0b' || c = '\x0c' ||
  c = ' ' || c = '\u0085' || c = '　'

/-- Python's `\d` restricted to ASCII and full-width digits (the two decimal
digit families occurring in the data handled here). -/
def pyDigit (c : Char) : Bool :=
  c.isDigit || ('０' ≤ c && c ≤ '９')

/-- Numeric value of a `pyDigit` character. -/
def pyDigitVal (c : Char) : Nat :=
  if c.isDigit then c.toNat - '0'.toNat else c.toNat - '０'.toNat

/-- Python `int()` on a non-empty digit string. -/
def digitsVal (l : List Char) : Nat :=
  l.foldl (fun acc c => 10 * acc + pyDigitVal c) 0

/-- Python `str.lower()` (ASCII letters; other characters unchanged). -/
def lower (s : String) : List Char :=
  s.data.map Char.toLower

/-- Python's substring operator `needle in hay` (and the semantics of a SQL
`LIKE '%needle%'` test for a literal needle): `true` iff `needle` occurs
contiguously inside `hay`. -/
def containsSub (needle hay : List Char) : Bool :=
  hay.tails.any (fun t => needle.isPrefixOf t)

/-- Substring test lifted to `String`s (Python `a in b`). -/
def hasSub (hay needle : String) : Bool :=
  containsSub needle.data hay.data

/-- Python `str.strip()`: drop leading and trailing whitespace. -/
def pyStripChars (l : List Char) : List Char :=
  ((l.dropWhile pyWhitespace).reverse.dropWhile pyWhitespace).reverse

def pyStrip (s : String) : String :=
  ⟨pyStripChars s.data⟩

/-- Helper for `pySplitWs`: `acc` holds the characters of the current word in
reverse. -/
def pySplitWsAux : List Char → List Char → List (List Char)
  | [], acc => if acc.isEmpty then [] else [acc.reverse]
  | c :: rest, acc =>
    if pyWhitespace c then
      if acc.isEmpty then pySplitWsAux rest [] else acc.reverse :: pySplitWsAux rest []
    else pySplitWsAux rest (c :: acc)

/-- Python `str.split()` (split on whitespace runs, no empty items). -/
def pySplitWs (l : List Char) : List (List Char) :=
  pySplitWsAux l []

/-- Whitespace tokenization of a query string (Python `query.split()`). -/
def splitQuery (q : String) : List String :=
  (pySplitWs q.data).map (fun w => (⟨w⟩ : String))

/-! ### SQL `LIKE`

`likeMatch pat s` is the denotation of the BigQuery predicate
`s LIKE pat`: `%` matches any (possibly empty) character sequence, `_` matches
exactly one character, a backslash escapes the following character, and every
other character matches itself.  The recursion is structural on the pattern
(`%` is resolved by trying every suffix of the subject), so the function
reduces definitionally. -/

/-- Fuel-driven `LIKE` matcher: backtracking over `%` decreases
`pattern.length + subject.length` at every step, so
`pattern.length + subject.length + 1` fuel always suffices.  The fuel makes
the recursion structural, so the matcher reduces definitionally. -/
def likeMatchF : Nat → List Char → List Char → Bool
  | 0, _, _ => false
  | _ + 1, [], s => s.isEmpty
  | f + 1, p :: ps, s =>
    if p = '%' then
      likeMatchF f ps s ||
        (match s with
         | [] => false
         | _ :: s2 => likeMatchF f (p :: ps) s2)
    else if p = '_' then
      match s with
      | [] => false
      | _ :: s2 => likeMatchF f ps s2
    else if p = '\\' then
      match ps, s with
      | c :: ps2, d :: s2 => d == c && likeMatchF f ps2 s2
      | _, _ => false
    else
      match s with
      | [] => false
      | d :: s2 => d == p && likeMatchF f ps s2

def likeMatch (p s : List Char) : Bool :=
  likeMatchF (p.length + s.length + 1) p s

/-- Tokens free of the three `LIKE` metacharacters: for these, `LIKE '%t%'`
coincides with substring containment. -/
def noLikeMeta (t : List Char) : Prop :=
  ∀ c ∈ t, c ≠ '%' ∧ c ≠ '_' ∧ c ≠ '\\'

instance (t : List Char) : Decidable (noLikeMeta t) :=
  List.decidableBAll _ t

/-- The predicate `s LIKE '%t%'`. -/
def likePercents (t s : List Char) : Bool :=
  likeMatch ('%' :: (t ++ ['%'])) s

/-! ### Regex scanning helpers

Python's `re.search` scans candidate start positions left to right and returns
the first position where the pattern matches.  Each pattern used by
`is_young_researcher` is compiled here into a position matcher
(`List Char → Option group`), and `searchPos` performs the left-to-right scan.
`\s*` is modelled as "drop the maximal whitespace run" and `(.+)` as "the rest
of the current line" — for these patterns this agrees with Python's
greedy/backtracking semantics whenever the remainder holds any non-whitespace
text, and in the remaining corner cases (a whitespace-only tail) the captured
group can contain only whitespace/punctuation, so no position keyword can be
found in it either way.  `.` never matches a newline (Python default). -/

def searchPos {α : Type} (f : List Char → Option α) : List Char → Option α
  | [] => f []
  | l@(_ :: rest) =>
    match f l with
    | some a => some a
    | none => searchPos f rest

/-- Rest of the current line (what a greedy `(.+)` / lazy `.*?` may span). -/
def lineOf (l : List Char) : List Char :=
  l.takeWhile (fun d => d ≠ '\n')

/-- Matcher for `\d{4}年\s*SEP\s*(.+)` at a fixed position (SEP a literal). -/
def matchYearSepAt (sep : List Char) (l : List Char) : Option (List Char) :=
  match l with
  | d1 :: d2 :: d3 :: d4 :: c :: rest =>
    if pyDigit d1 && pyDigit d2 && pyDigit d3 && pyDigit d4 && c = '年' then
      let r1 := rest.dropWhile pyWhitespace
      if sep.isPrefixOf r1 then
        let r2 := (r1.drop sep.length).dropWhile pyWhitespace
        let g := lineOf r2
        if g.isEmpty then none else some g
      else none
    else none
  | _ => none

/-- Matcher for `現在\s*[：:]?\s*(.+)` at a fixed position. -/
def matchGenzaiAt (l : List Char) : Option (List Char) :=
  if ['現', '在'].isPrefixOf l then
    let r1 := (l.drop 2).dropWhile pyWhitespace
    let r2 :=
      match r1 with
      | c :: rest => if c = '：' || c = ':' then rest.dropWhile pyWhitespace else r1
      | [] => r1
    let g := lineOf r2
    if g.isEmpty then none else some g
  else none

/-- Matcher for `平成元年生まれ|平成\d+年生まれ` at a fixed position, returning the
matched text (`group(0)`). -/
def matchHeiseiAt (l : List Char) : Option (List Char) :=
  if "平成元年生まれ".data.isPrefixOf l then some "平成元年生まれ".data
  else if "平成".data.isPrefixOf l then
    let rest := l.drop 2
    let ds := rest.takeWhile pyDigit
    if ds.isEmpty then none
    else if "年生まれ".data.isPrefixOf (rest.drop ds.length) then
      some ("平成".data ++ ds ++ "年生まれ".data)
    else none
  else none

/-- First maximal digit run of a string (`re.search(r'\d+', s).group(0)`). -/
def firstDigitRun : List Char → List Char
  | [] => []
  | c :: rest => if pyDigit c then (c :: rest).takeWhile pyDigit else firstDigitRun rest

/-- Suffix just after the first occurrence of `w` (backs the lazy `.*?w`). -/
def dropToAfter (w : List Char) : List Char → Option (List Char)
  | [] => if w.isEmpty then some [] else none
  | l@(_ :: rest) =>
    if w.isPrefixOf l then some (l.drop w.length) else dropToAfter w rest

/-- `w₁.*?w₂.*?…` within one line: the words occur in order. -/
def seqInLine : List (List Char) → List Char → Bool
  | [], _ => true
  | w :: ws, l =>
    match dropToAfter w l with
    | some r => seqInLine ws r
    | none => false

/-- Matcher for `(\d{4})年` followed by a line-local condition (backs the
patterns `(\d{4})年.*?X.*?Y`). -/
def matchD4NenPred (pred : List Char → Bool) (l : List Char) : Option (List Char) :=
  match l with
  | d1 :: d2 :: d3 :: d4 :: c :: rest =>
    if pyDigit d1 && pyDigit d2 && pyDigit d3 && pyDigit d4 && c = '年' &&
        pred (lineOf rest) then
      some [d1, d2, d3, d4]
    else none
  | _ => none

/-- First position holding `(\d{4})年` (the lazy scan of `.*?(\d{4})年`). -/
def scanD4Nen : List Char → Option (List Char)
  | d1 :: d2 :: d3 :: d4 :: c :: rest =>
    if pyDigit d1 && pyDigit d2 && pyDigit d3 && pyDigit d4 && c = '年' then
      some [d1, d2, d3, d4]
    else scanD4Nen (d2 :: d3 :: d4 :: c :: rest)
  | _ => none

/-- First position holding four consecutive digits (lazy scan of `.*?(\d{4})`). -/
def scanD4 : List Char → Option (List Char)
  | d1 :: d2 :: d3 :: d4 :: rest =>
    if pyDigit d1 && pyDigit d2 && pyDigit d3 && pyDigit d4 then
      some [d1, d2, d3, d4]
    else scanD4 (d2 :: d3 :: d4 :: rest)
  | _ => none

/-- Optional trailing dot (`\.?`). -/
def dropOptDot : List Char → List Char
  | '.' :: r => r
  | r => r

/-- Matcher for `ph\.?d\.?` at a fixed position, returning the suffix after the
consumed text. -/
def matchPhdWordAt : List Char → Option (List Char)
  | 'p' :: 'h' :: rest =>
    (match rest with
     | '.' :: 'd' :: r2 => some (dropOptDot r2)
     | 'd' :: r2 => some (dropOptDot r2)
     | _ => none)
  | _ => none

/-! ### Young-researcher classifier (`is_young_researcher`, real_search.py 22-218)

The Python function accumulates `reasons` through nine sequential stages and
finally overrides the verdict when an exclusion keyword occurs; the stages are
translated one by one and concatenated in source order.  The wall-clock year is
the injected `current_year`. -/

/-- real_search.py 39-45. -/
def profile_positions : List String :=
  ["特任研究員", "特任講師", "特任助教", "助教", "准教授",
   "博士研究員", "ポスドク", "研究員", "助手", "講師",
   "博士後期課程", "博士課程", "ポストドクトラル",
   "日本学術振興会特別研究員", "jsps特別研究員", "特別研究員",
   "博士学生", "大学院生", "医員"]

/-- real_search.py 73-78. -/
def young_positions_ja : List String :=
  ["助教", "准教授", "博士研究員", "ポスドク", "研究員",
   "特任助教", "特任准教授", "助手", "講師", "特任研究員",
   "博士後期課程", "博士課程", "ポストドクトラル", "日本学術振興会特別研究員",
   "jsps特別研究員", "特別研究員", "博士学生", "大学院生"]

/-- real_search.py 81-85. -/
def young_positions_en : List String :=
  ["assistant", "associate professor", "postdoc", "researcher",
   "fellow", "doctoral", "phd student", "graduate student",
   "research associate", "post-doctoral", "jsps fellow"]

/-- real_search.py 88. -/
def senior_positions_ja : List String :=
  ["教授", "名誉教授", "客員教授", "特任教授", "主席研究員", "統括"]

/-- real_search.py 89. -/
def senior_positions_en : List String :=
  ["professor", "emeritus", "director", "principal", "chief"]

/-- real_search.py 111-116. -/
def young_keywords : List String :=
  ["若手", "新進気鋭", "early career", "博士課程", "博士取得",
   "学位取得", "キャリア初期", "研究員として", "採用され",
   "着任", "博士号取得", "ph.d.取得", "学振", "jsps",
   "育志賞", "若手研究者賞", "奨励賞"]

/-- real_search.py 208. -/
def exclusion_keywords : List String :=
  ["退職", "名誉", "元教授", "元所長", "顧問", "理事長", "学長", "総長"]

/-- First listed position marker contained in `text`. -/
def firstContained (positions : List String) (text : List Char) : Option String :=
  positions.find? (fun p => containsSub p.data text)

/-- The four current-position patterns of real_search.py 48-53, in order. -/
def stageA_patterns : List (List Char → Option (List Char)) :=
  [matchYearSepAt ['-'], matchYearSepAt ['～'], matchYearSepAt ['か', 'ら'],
   matchGenzaiAt]

/-- real_search.py 55-64: try each current-position pattern; on a match, look
for a position keyword inside the captured group; stop at the first pattern
that yields a reason, otherwise keep trying the remaining patterns. -/
def stageA_go : List (List Char → Option (List Char)) → List Char → List String
  | [], _ => []
  | m :: ms, profile =>
    match searchPos m profile with
    | some g =>
      match firstContained profile_positions (g.map Char.toLower) with
      | some pos => ["現職(プロフィール): " ++ pos]
      | none => stageA_go ms profile
    | none => stageA_go ms profile

def stageA (profile : List Char) : List String :=
  stageA_go stageA_patterns profile

/-- real_search.py 92-98: first Japanese early-career job title occurring in a
job column, suppressed entirely when any Japanese senior marker occurs there. -/
def stageB (job_ja job_title_ja : List Char) : List String :=
  match young_positions_ja.find?
      (fun p => containsSub p.data job_ja || containsSub p.data job_title_ja) with
  | some pos =>
    if senior_positions_ja.any
        (fun sp => containsSub sp.data job_ja || containsSub sp.data job_title_ja) then []
    else ["職位: " ++ pos]
  | none => []

/-- real_search.py 100-106: the English analogue, with the extra
`'full professor' not in job_en` guard. -/
def stageC (job_en job_title_en : List Char) : List String :=
  match young_positions_en.find?
      (fun p => containsSub p.data job_en || containsSub p.data job_title_en) with
  | some pos =>
    if senior_positions_en.any
        (fun sp => containsSub sp.data job_en || containsSub sp.data job_title_en) then []
    else if containsSub "full professor".data job_en then []
    else ["職位(英): " ++ pos]
  | none => []

/-- real_search.py 119-133: Heisei birth year. -/
def stageD (current_year : Int) (profile : List Char) : List String :=
  match searchPos matchHeiseiAt profile with
  | some birth_text =>
    let birth_year : Int :=
      if containsSub "平成元年".data birth_text then 1989
      else 1988 + (digitsVal (firstDigitRun birth_text) : Int)
    let age := current_year - birth_year
    if age ≤ 45 then
      ["生年: " ++ (⟨birth_text⟩ : String) ++ "（" ++ toString age ++ "歳）"]
    else []
  | none => []

/-- real_search.py 135-138: first early-career keyword in the biography. -/
def stageE (profile : List Char) : List String :=
  match young_keywords.find? (fun k => containsSub k.data profile) with
  | some k => ["キーワード: " ++ k]
  | none => []

/-- The six doctorate-year patterns of real_search.py 144-151, in order. -/
def phd_patterns : List (List Char → Option (List Char)) :=
  [matchD4NenPred (seqInLine ["博士".data, "取得".data]),
   matchD4NenPred (fun line => containsSub "phd".data line || containsSub "ph.d".data line),
   fun l => if "博士".data.isPrefixOf l then scanD4Nen (lineOf (l.drop 2)) else none,
   fun l =>
     match matchPhdWordAt l with
     | some r => scanD4 (lineOf r)
     | none => none,
   matchD4NenPred (seqInLine ["学位".data]),
   matchD4NenPred (seqInLine ["博士課程".data, "修了".data])]

/-- real_search.py 153-160: first doctorate-year pattern whose year lies within
the last 15 years; a match outside the window lets the next pattern be tried. -/
def stageF_go (current_year : Int) :
    List (List Char → Option (List Char)) → List Char → List String
  | [], _ => []
  | m :: ms, profile =>
    match searchPos m profile with
    | some g =>
      let ys := current_year - (digitsVal g : Int)
      if 0 ≤ ys ∧ ys ≤ 15 then
        ["博士取得: " ++ toString (digitsVal g) ++ "年（" ++ toString ys ++ "年前）"]
      else stageF_go current_year ms profile
    | none => stageF_go current_year ms profile

def stageF (current_year : Int) (profile : List Char) : List String :=
  stageF_go current_year phd_patterns profile

/-- Matcher for `\[(\d{4})\]` at a fixed position. -/
def matchBracketD4At : List Char → Option (List Char)
  | '[' :: d1 :: d2 :: d3 :: d4 :: c :: _ =>
    if pyDigit d1 && pyDigit d2 && pyDigit d3 && pyDigit d4 && c = ']' then
      some [d1, d2, d3, d4]
    else none
  | _ => none

/-- real_search.py 163-169: first-paper year (note: the raw, non-lowercased
`paper_title_ja_first` field is scanned). -/
def stageG (current_year : Int) (paper_title : List Char) : List String :=
  let m :=
    match searchPos matchBracketD4At paper_title with
    | some g => some g
    | none => scanD4Nen paper_title
  match m with
  | some g =>
    let ya := current_year - (digitsVal g : Int)
    if 0 ≤ ya ∧ ya ≤ 10 then
      ["研究開始: " ++ toString (digitsVal g) ++ "年（" ++ toString ya ++ "年前）"]
    else []
  | none => []

/-- Matcher for `(\d{2})歳` at a fixed position. -/
def matchD2SaiAt : List Char → Option (List Char)
  | d1 :: d2 :: c :: _ =>
    if pyDigit d1 && pyDigit d2 && c = '歳' then some [d1, d2] else none
  | _ => none

/-- Matcher for `(\d{4})年生まれ` at a fixed position. -/
def matchD4UmareAt : List Char → Option (List Char)
  | d1 :: d2 :: d3 :: d4 :: rest =>
    if pyDigit d1 && pyDigit d2 && pyDigit d3 && pyDigit d4 &&
        "年生まれ".data.isPrefixOf rest then
      some [d1, d2, d3, d4]
    else none
  | _ => none

/-- real_search.py 172-190: explicit age or birth year; the first pattern that
matches ends the stage, even when its value lies outside 25-45. -/
def stageH (current_year : Int) (profile : List Char) : List String :=
  match searchPos matchD2SaiAt profile with
  | some g =>
    let age : Int := (digitsVal g : Int)
    if 25 ≤ age ∧ age ≤ 45 then ["年齢: " ++ toString (digitsVal g) ++ "歳"] else []
  | none =>
    match searchPos matchD4UmareAt profile with
    | some g =>
      let age := current_year - (digitsVal g : Int)
      if 25 ≤ age ∧ age ≤ 45 then
        ["生年: " ++ toString (digitsVal g) ++ "年（" ++ toString age ++ "歳）"]
      else []
    | none =>
      match searchPos (matchD4NenPred (seqInLine ["誕生".data])) profile with
      | some g =>
        let age := current_year - (digitsVal g : Int)
        if 25 ≤ age ∧ age ≤ 45 then
          ["生年: " ++ toString (digitsVal g) ++ "年（" ++ toString age ++ "歳）"]
        else []
      | none => []

/-- real_search.py 194-202: first year in `[current-5, current]` that occurs in
one of the three "since year" forms; then the first position keyword anywhere
in the biography. -/
def stageI_go (profile : List Char) : List Int → List String
  | [] => []
  | i :: is =>
    if containsSub (toString i ++ "年-").data profile ||
        containsSub ("〜" ++ toString i ++ "年").data profile ||
        containsSub (toString i ++ "年～").data profile then
      match profile_positions.find? (fun p => containsSub p.data profile) with
      | some pos => ["現職(プロフィール): " ++ pos ++ " (" ++ toString i ++ "年～)"]
      | none => []
    else stageI_go profile is

def stageI (current_year : Int) (profile : List Char) : List String :=
  stageI_go profile ((List.range 6).map (fun k => current_year - 5 + (k : Int)))

/-- One row of the researcher warehouse (the columns selected by the search
queries).  A SQL `NULL` text field is modelled as `""`; the classifier coerces
nulls with `or ''` and `LIKE` tests fail on `NULL` exactly as they do on the
empty string. -/
structure ResearcherRecord where
  name_ja : String := ""
  name_en : String := ""
  main_affiliation_name_ja : String := ""
  main_affiliation_name_en : String := ""
  main_affiliation_job_ja : String := ""
  main_affiliation_job_title_ja : String := ""
  main_affiliation_job_en : String := ""
  main_affiliation_job_title_en : String := ""
  research_keywords_ja : String := ""
  research_fields_ja : String := ""
  profile_ja : String := ""
  paper_title_ja_first : String := ""
  project_title_ja_first : String := ""
  researchmap_url : String := ""
deriving DecidableEq

/-- The nine reason-accumulating stages of real_search.py 29-202, concatenated
in source order (list append models the sequential `reasons.append` calls). -/
def young_reasons (current_year : Int) (r : ResearcherRecord) : List String :=
  let profile := lower r.profile_ja
  let job_ja := lower r.main_affiliation_job_ja
  let job_title_ja := lower r.main_affiliation_job_title_ja
  let job_en := lower r.main_affiliation_job_en
  let job_title_en := lower r.main_affiliation_job_title_en
  stageA profile ++ stageB job_ja job_title_ja ++ stageC job_en job_title_en ++
    stageD current_year profile ++ stageE profile ++ stageF current_year profile ++
    stageG current_year r.paper_title_ja_first.data ++ stageH current_year profile ++
    stageI current_year profile

/-- real_search.py 208-213: the first exclusion keyword found in the lowered
biography or Japanese job columns. -/
def exclusion_find (r : ResearcherRecord) : Option String :=
  exclusion_keywords.find? (fun kw =>
    containsSub kw.data (lower r.profile_ja) ||
    containsSub kw.data (lower r.main_affiliation_job_ja) ||
    containsSub kw.data (lower r.main_affiliation_job_title_ja))

/-- real_search.py 22-218, `is_young_researcher`: accumulate the stage reasons,
set `is_young` iff any reason was found, then let an exclusion keyword
override the verdict with a single-element reason list. -/
def is_young_researcher (current_year : Int) (r : ResearcherRecord) :
    Bool × List String :=
  let reasons := young_reasons current_year r
  match exclusion_find r with
  | some kw => (false, ["除外条件: " ++ kw])
  | none => (!reasons.isEmpty, reasons)

/-! ### Search-pipeline data model -/

/-- A result dictionary as assembled by the search functions: the record's
columns plus the ranking and classification annotations (`relevance_score`
for the keyword path, `distance`/`similarity` for the vector paths,
`llm_summary` when the summarizer ran). -/
structure RankedResult where
  record : ResearcherRecord
  relevance_score : Option Rat := none
  distance : Option Rat := none
  similarity : Option Rat := none
  is_young_researcher : Bool := false
  young_researcher_reasons : List String := []
  llm_summary : Option String := none
deriving DecidableEq

/-- A row returned by the keyword-search SQL (record columns plus the computed
`relevance_score` column). -/
structure KeywordRow where
  record : ResearcherRecord
  relevance_score : Rat := 0
deriving DecidableEq

/-- A row returned by the warehouse-native `VECTOR_SEARCH` query (the `base`
record plus the `distance` column; the dataframe flattening of
real_search.py 497-522 is modelled by keeping the record nested). -/
structure VectorRow where
  record : ResearcherRecord
  distance : Rat := 0
deriving DecidableEq

/-- The nearest-neighbor request issued by `semantic_search_with_embedding`
(real_search.py 461-481): corpus restricted by the university filter, cosine
distance, and `top_k => max_results`. -/
structure VectorSearchRequest where
  query_vector : List Rat
  top_k : Nat
  distance_type : String
  university_filter : Option (List String)
deriving DecidableEq

/-- The candidate-prefetch query issued by the realtime fallback
(real_search.py 584-636): lexical pre-filter on the first query keyword and
`LIMIT max_results * 5`. -/
structure RealtimeFetchRequest where
  first_keyword : String
  limit : Nat
  university_filter : Option (List String)
deriving DecidableEq

/-- `expand_query_with_llm`'s result dictionary. -/
structure ExpansionResult where
  original_query : String
  expanded_keywords : List String
  expanded_query : String
deriving DecidableEq

/-- The inbound search request (the fields of the HTTP request object that
`perform_real_search` reads). -/
structure SearchRequest where
  query : String
  method : String
  max_results : Nat
  use_llm_expansion : Bool := false
  use_llm_summary : Bool := false
  young_researcher_filter : Bool := false
  university_filter : Option (List String) := none
deriving DecidableEq

/-- The success envelope of real_search.py 388-398 (the `status` key is the
constructor of `SearchOutcome`; wall-clock `execution_time` and the derived
`executed_query_info` string are omitted from the model). -/
structure SuccessEnvelope where
  query : String
  method : String
  evaluation_mode : String
  results : List RankedResult
  total : Nat
  expanded_info : Option ExpansionResult
deriving DecidableEq

/-- A search response: either the success envelope or the error envelope of
real_search.py 404-410. -/
inductive SearchOutcome where
  | success (e : SuccessEnvelope)
  | error (message : String)
deriving DecidableEq

/-- The external collaborators, abstracted as oracles.  `Except .error`
models a raised exception / failed call; `Bool` fields model availability
checks and constructor successes.  `realtime_search` abstracts the whole
realtime brute-force fallback body after its prefetch request is built (its
numeric core — batched re-embedding and floating-point cosine similarity —
lies outside the pure fragment modelled here); `keyword_rows` is the row set
BigQuery returns for the keyword-search SQL built from the given query,
limit and university filter. -/
structure Env where
  bq_available : Bool
  vertex_ai_ready : Bool
  gemini_generate : String → Except String String
  bison_generate : String → Except String String
  embed_query : String → Except String (List Rat)
  vector_search : VectorSearchRequest → Except String (List VectorRow)
  realtime_search : RealtimeFetchRequest → List Rat → Except String (List RankedResult)
  keyword_rows : String → Nat → Option (List String) → Except String (List KeywordRow)
  gemini_lite_ok : Bool
  bison_ok : Bool
  generate_summary : Nat → String → Except String String

/-! ### Vector ranker (real_search.py 413-575) -/

/-- real_search.py 428. -/
def expected_dimensions : Nat := 768

/-- real_search.py 427-434: normalize the query embedding to the corpus
dimension — truncate when longer, right-pad with `0.0` when shorter, keep
unchanged when equal. -/
def adjust_embedding_dimensions (v : List Rat) : List Rat :=
  if v.length = expected_dimensions then v
  else if v.length > expected_dimensions then v.take expected_dimensions
  else v ++ List.replicate (expected_dimensions - v.length) 0

/-- real_search.py 461-481: the `VECTOR_SEARCH` request — cosine distance and
`top_k => max_results` (the `top_k_param` query parameter is bound to
`max_results` on line 479). -/
def build_vector_search_request (query_embedding : List Rat) (max_results : Nat)
    (university_filter : Option (List String)) : VectorSearchRequest :=
  { query_vector := query_embedding
    top_k := max_results
    distance_type := "COSINE"
    university_filter := university_filter }

/-- real_search.py 584-636: the realtime fallback's candidate prefetch —
lexical filter on the first whitespace token of the query (or the query itself
when it has no tokens) and `LIMIT max_results * 5`. -/
def build_realtime_fetch_request (query : String) (max_results : Nat)
    (university_filter : Option (List String)) : RealtimeFetchRequest :=
  { first_keyword :=
      match splitQuery query with
      | [] => query
      | k :: _ => k
    limit := max_results * 5
    university_filter := university_filter }

/-- Annotation step shared by the search paths (real_search.py 530-533,
715-718, 872-875): run the classifier and attach its verdict. -/
def vector_annotate (current_year : Int) (row : VectorRow) : RankedResult :=
  let y := is_young_researcher current_year row.record
  { record := row.record
    distance := some row.distance
    is_young_researcher := y.1
    young_researcher_reasons := y.2 }

/-- real_search.py 852-890: a keyword-search SQL row becomes a result
dictionary; `relevance_score` is kept only when truthy
(`float(row.relevance_score) if row.relevance_score else None`). -/
def keyword_annotate (current_year : Int) (row : KeywordRow) : RankedResult :=
  let y := is_young_researcher current_year row.record
  { record := row.record
    relevance_score := if row.relevance_score ≠ 0 then some row.relevance_score else none
    is_young_researcher := y.1
    young_researcher_reasons := y.2 }

/-- real_search.py 760-907, `keyword_search`: run the generated SQL (the row
set is the oracle's answer) and annotate every row; a query failure is
re-raised to the caller (real_search.py 905-907). -/
def keyword_search (env : Env) (current_year : Int) (query : String)
    (max_results : Nat) (university_filter : Option (List String)) :
    Except String (List RankedResult) :=
  match env.keyword_rows query max_results university_filter with
  | .ok rows => .ok (rows.map (keyword_annotate current_year))
  | .error e => .error e

/-- real_search.py 413-575, `semantic_search_with_embedding`: embed the query,
normalize its dimension, try the warehouse-native `VECTOR_SEARCH`; on its
failure fall back to the realtime brute-force path; when the embedding call
itself or the realtime fallback raises, the outer handler falls back to
`keyword_search`. -/
def semantic_search_with_embedding (env : Env) (current_year : Int)
    (query : String) (max_results : Nat)
    (university_filter : Option (List String)) :
    Except String (List RankedResult) :=
  match env.embed_query query with
  | .error _ => keyword_search env current_year query max_results university_filter
  | .ok emb =>
    let emb2 := adjust_embedding_dimensions emb
    match env.vector_search
        (build_vector_search_request emb2 max_results university_filter) with
    | .ok rows => .ok (rows.map (vector_annotate current_year))
    | .error _ =>
      match env.realtime_search
          (build_realtime_fetch_request query max_results university_filter) emb2 with
      | .ok rs => .ok rs
      | .error _ =>
        keyword_search env current_year query max_results university_filter

/-! ### Relevance scorer (the SQL expression of real_search.py 787-802)

The keyword-search SQL computes, per whitespace token of the query and per
field, `CASE WHEN LOWER(field) LIKE LOWER('%token%') THEN weight ELSE 0 END`,
and sums everything into `relevance_score`.  The `LIKE` predicate is the
wildcard matcher `likeMatch`, not plain substring containment: `%`, `_` and
`\` inside a token keep their `LIKE` metacharacter meaning because the code
only escapes single quotes. -/

/-- `LOWER(field) LIKE LOWER('%kw%')`. -/
def fieldLike (kw field : String) : Bool :=
  likePercents (lower kw) (lower field)

/-- Score contributed by one token (the CASE block of real_search.py 791-800). -/
def relevance_score_token (r : ResearcherRecord) (kw : String) : Nat :=
  (if fieldLike kw r.name_ja then 10 else 0) +
  (if fieldLike kw r.research_keywords_ja then 8 else 0) +
  (if fieldLike kw r.research_fields_ja then 6 else 0) +
  (if fieldLike kw r.paper_title_ja_first then 5 else 0) +
  (if fieldLike kw r.project_title_ja_first then 5 else 0) +
  (if fieldLike kw r.profile_ja then 4 else 0)

/-- The tokens of the query: `[kw.strip() for kw in query.split() if kw.strip()]`
(whitespace split already yields stripped, non-empty tokens). -/
def query_keywords (query : String) : List String :=
  ((splitQuery query).map pyStrip).filter (fun k => k ≠ "")

/-- The `relevance_score` column: sum of the per-token CASE blocks. -/
def relevance_score (r : ResearcherRecord) (keywords : List String) : Nat :=
  (keywords.map (relevance_score_token r)).sum

/-- The scorer as §4.1 of the spec words it: a weight is awarded by
case-insensitive substring containment of the token in the field.  This is the
comparison definition for the refinement claim; it differs from
`relevance_score` exactly on tokens holding `LIKE` metacharacters. -/
def relevance_score_token_spec (r : ResearcherRecord) (kw : String) : Nat :=
  (if containsSub (lower kw) (lower r.name_ja) then 10 else 0) +
  (if containsSub (lower kw) (lower r.research_keywords_ja) then 8 else 0) +
  (if containsSub (lower kw) (lower r.research_fields_ja) then 6 else 0) +
  (if containsSub (lower kw) (lower r.paper_title_ja_first) then 5 else 0) +
  (if containsSub (lower kw) (lower r.project_title_ja_first) then 5 else 0) +
  (if containsSub (lower kw) (lower r.profile_ja) then 4 else 0)

def relevance_score_spec (r : ResearcherRecord) (keywords : List String) : Nat :=
  (keywords.map (relevance_score_token_spec r)).sum

/-! ### Query expander (real_search.py 909-1011) -/

/-- real_search.py 943/983: split the generated text on commas, strip each
piece, keep the non-empty ones. -/
def parse_comma_keywords (text : String) : List String :=
  ((text.data.splitOn ',').map (fun w => pyStrip ⟨w⟩)).filter (fun k => k ≠ "")

/-- real_search.py 949-951: append each keyword not already present
(order-preserving dedup). -/
def dedup_append (acc : List String) : List String → List String
  | [] => acc
  | k :: ks => if k ∈ acc then dedup_append acc ks else dedup_append (acc ++ [k]) ks

/-- real_search.py 946-951 (Gemini path): prepend the query only when it is
absent from the parsed keywords, then dedup the parsed keywords in order. -/
def gemini_final_keywords (query text : String) : List String :=
  let expanded_keywords := parse_comma_keywords text
  let init := if query ∈ expanded_keywords then [] else [query]
  dedup_append init expanded_keywords

/-- real_search.py 984-985 (text-bison path): same prepend rule, but the list
comprehension filters only against the initial list, so duplicates inside the
parsed keywords survive. -/
def bison_final_keywords (query text : String) : List String :=
  let expanded_keywords := parse_comma_keywords text
  let init := if query ∈ expanded_keywords then [] else [query]
  init ++ expanded_keywords.filter (fun k => k ∉ init)

/-- real_search.py 997-1011: the degenerate expansion returned on every
failure path. -/
def degenerate_expansion (query : String) : ExpansionResult :=
  { original_query := query, expanded_keywords := [query], expanded_query := query }

/-- The instructional prompt of real_search.py 920-928. -/
def gemini_expand_prompt (query : String) : String :=
  "あなたは学術研究データベースの検索アシスタントです。\n" ++
  "ユーザーが入力した「元のキーワード」について、そのキーワードを含む研究情報をより効果的に見つけるために、\n" ++
  "関連性の高い類義語、上位/下位概念語、英語の対応語（もしあれば）、具体的な技術名や物質名などを考慮し、\n" ++
  "検索に有効そうなキーワードを最大10個提案してください。\n" ++
  "提案は日本語の単語または短いフレーズで、カンマ区切りで出力してください。元のキーワード自体も提案に含めてください。\n" ++
  "\n元のキーワード: 「" ++ query ++ "」\n\n提案:"

/-- The fallback prompt of real_search.py 967-971. -/
def bison_expand_prompt (query : String) : String :=
  "研究キーワード「" ++ query ++ "」に関連する学術用語を5-10個提案してください。カンマ区切りで出力してください。\n" ++
  "\n元のキーワード: " ++ query ++ "\n\n関連キーワード:"

/-- real_search.py 909-1011, `expand_query_with_llm`: Gemini first; on a Gemini
exception, text-bison; an empty (stripped) generation or a second failure
resolves to the degenerate expansion.  Every failure path lands on the
degenerate result, so the embedding is a total function — the Python function
never raises to its caller. -/
def expand_query_with_llm (env : Env) (query : String) : ExpansionResult :=
  match env.gemini_generate (gemini_expand_prompt query) with
  | .ok t0 =>
    let t := pyStrip t0
    if t ≠ "" then
      let fk := gemini_final_keywords query t
      { original_query := query
        expanded_keywords := fk
        expanded_query := String.intercalate " " (fk.take 5) }
    else degenerate_expansion query
  | .error _ =>
    match env.bison_generate (bison_expand_prompt query) with
    | .ok t0 =>
      let t := pyStrip t0
      if t ≠ "" then
        let fk := bison_final_keywords query t
        { original_query := query
          expanded_keywords := fk
          expanded_query := String.intercalate " " (fk.take 5) }
      else degenerate_expansion query
    | .error _ => degenerate_expansion query

/-! ### Summarization augmenter (real_search.py 1013-1116) -/

/-- real_search.py 1099/1108: the generic fallback summary. -/
def generic_summary (query : String) : String :=
  "「" ++ query ++ "」に関連する研究を行っています。"

/-- real_search.py 1105: the rate-limit sentinel summary. -/
def rate_limit_summary : String :=
  "⚠️ API制限のため要約をスキップしました"

/-- The per-researcher prompt of real_search.py 1060-1071 (biography truncated
to 300 characters on line 1055). -/
def summary_prompt (query : String) (r : RankedResult) : String :=
  "研究者情報:\n名前: " ++ r.record.name_ja ++ " (" ++
  r.record.main_affiliation_name_ja ++ ")\n研究キーワード: " ++
  r.record.research_keywords_ja ++ "\n研究分野: " ++
  r.record.research_fields_ja ++ "\nプロフィール: " ++
  (⟨r.record.profile_ja.data.take 300⟩ : String) ++ "\n主要論文: " ++
  r.record.paper_title_ja_first ++ "\n主要プロジェクト: " ++
  r.record.project_title_ja_first ++ "\n\n検索クエリ: 「" ++ query ++
  "」\n\n上記の研究キーワード、プロフィール、主要論文、主要プロジェクトを踏まえて、\nこの研究者と検索クエリとの関連性を200字程度で分析してください。"

/-- real_search.py 1073-1108: the summary attached to call number `idx` — the
stripped generation when non-empty, the generic fallback on an empty one, the
rate-limit sentinel when the raised message signals `429` / resource
exhaustion, and the generic fallback on any other per-item failure. -/
def item_summary (env : Env) (query : String) (idx : Nat) (r : RankedResult) :
    String :=
  match env.generate_summary idx (summary_prompt query r) with
  | .ok t =>
    let s := pyStrip t
    if s ≠ "" then s else generic_summary query
  | .error msg =>
    if hasSub msg "429" || hasSub msg "Resource exhausted" then rate_limit_summary
    else generic_summary query

/-- The `for idx, result in enumerate(results)` loop of real_search.py
1044-1108: each item gets its own summary; a per-item failure only affects its
own element (the inter-call `time.sleep(0.5)` throttle is timing-only and not
modelled). -/
def add_summaries_from (env : Env) (query : String) :
    Nat → List RankedResult → List RankedResult
  | _, [] => []
  | idx, r :: rs =>
    { r with llm_summary := some (item_summary env query idx r) } ::
      add_summaries_from env query (idx + 1) rs

/-- real_search.py 1013-1116, `add_llm_summaries`: try the Gemini 2.0 Flash
Lite constructor, then the text-bison constructor; when neither model can be
initialized the input list is returned unchanged, otherwise every result is
annotated (both model branches read `response.text.strip()` identically). -/
def add_llm_summaries (env : Env) (results : List RankedResult) (query : String) :
    List RankedResult :=
  if env.gemini_lite_ok then add_summaries_from env query 0 results
  else if env.bison_ok then add_summaries_from env query 0 results
  else results

/-! ### Search orchestrator (real_search.py 220-410) -/

/-- real_search.py 299-311: keep exactly the results whose
`is_young_researcher` flag is set. -/
def young_filter (results : List RankedResult) : List RankedResult :=
  results.filter (fun r => r.is_young_researcher)

/-- real_search.py 220-410, `perform_real_search`.  Control flow translated
branch by branch: BigQuery availability, capability downgrade (`method` is
mutated to "keyword" only when Vertex AI is reported unavailable), forced
expansion disable for semantic search, optional expansion, dispatch, the
young-researcher post-filter, optional summaries, and envelope assembly.  The
envelope's `method` key echoes the (possibly downgraded) request method. -/
def perform_real_search (env : Env) (current_year : Int) (req : SearchRequest) :
    SearchOutcome :=
  if env.bq_available = false then .error "BigQueryクライアントが利用できません"
  else
    let use_ai_summary := req.use_llm_summary
    let vertex_ai_required :=
      req.method == "semantic" || req.use_llm_expansion || req.use_llm_summary
    let vertex_ai_available := env.vertex_ai_ready
    let downgrade := vertex_ai_required && !vertex_ai_available
    let method1 :=
      if downgrade && req.method == "semantic" then "keyword" else req.method
    let expansion1 := if downgrade then false else req.use_llm_expansion
    let expansion2 := if method1 == "semantic" then false else expansion1
    let search_query := pyStrip req.query
    let expanded_info :=
      if expansion2 && vertex_ai_available then
        some (expand_query_with_llm env search_query)
      else none
    let search_query2 :=
      match expanded_info with
      | some er => er.expanded_query
      | none => search_query
    let resultsE :=
      if method1 == "semantic" && vertex_ai_available then
        semantic_search_with_embedding env current_year search_query2
          req.max_results req.university_filter
      else
        keyword_search env current_year search_query2 req.max_results
          req.university_filter
    match resultsE with
    | .error msg => .error msg
    | .ok results0 =>
      let results1 :=
        if req.young_researcher_filter && !results0.isEmpty then
          young_filter results0
        else results0
      let results2 :=
        if use_ai_summary && !results1.isEmpty && vertex_ai_available then
          add_llm_summaries env results1 req.query
        else results1
      .success
        { query := req.query
          method := method1
          evaluation_mode := "legacy"
          results := results2
          total := results2.length
          expanded_info := expanded_info }

/-! ### Concrete fixtures for the claim checks -/

/-- An environment in which every external call fails and no model is
available. -/
def dummy_env : Env :=
  { bq_available := true
    vertex_ai_ready := true
    gemini_generate := fun _ => .error "service unavailable"
    bison_generate := fun _ => .error "service unavailable"
    embed_query := fun _ => .error "service unavailable"
    vector_search := fun _ => .error "service unavailable"
    realtime_search := fun _ _ => .error "service unavailable"
    keyword_rows := fun _ _ _ => .ok []
    gemini_lite_ok := false
    bison_ok := false
    generate_summary := fun _ _ => .error "service unavailable" }

/-- A record carrying a senior marker ("Professor" in the romanized job
column) together with an early-career marker (the biography keyword 若手). -/
def c1_record : ResearcherRecord :=
  { main_affiliation_job_en := "Professor", profile_ja := "若手" }

/-- Expansion environment whose generation service answers the two keywords
"robotics, AI". -/
def c4_env : Env :=
  { dummy_env with gemini_generate := fun _ => .ok "robotics, AI" }

/-- Candidate whose keyword field holds a LIKE metacharacter trap: the token
`a%b` is not a substring of `aXb`, yet `LIKE '%a%b%'` matches it. -/
def c5_record : ResearcherRecord :=
  { research_keywords_ja := "aXb" }

/-- The candidate of the spec's 16-point scenario. -/
def c5_example_record : ResearcherRecord :=
  { name_ja := "Taro Yamada", research_keywords_ja := "machine learning, robotics" }

/-- The candidate row returned by the keyword path in the embedding-failure
scenario. -/
def c2_record : ResearcherRecord :=
  { name_ja := "山田太郎", research_keywords_ja := "machine learning, robotics" }

def c2_row : KeywordRow :=
  { record := c2_record, relevance_score := 16 }

/-- Environment for the embedding-failure scenario: BigQuery and Vertex AI are
reported available, the embedding call raises, the keyword SQL succeeds. -/
def c2_env : Env :=
  { dummy_env with
      embed_query := fun _ => .error "embedding failure"
      keyword_rows := fun _ _ _ => .ok [c2_row] }

def c2_req : SearchRequest :=
  { query := "AI", method := "semantic", max_results := 5 }

/-- The result dictionary the keyword fallback produces for `c2_row`. -/
def c2_result : RankedResult :=
  { record := c2_record, relevance_score := some 16 }

/-- Young and senior rows for the post-filter scenario. -/
def c6_young_record : ResearcherRecord :=
  { name_ja := "若手花子", main_affiliation_job_title_ja := "助教" }

def c6_senior_record : ResearcherRecord :=
  { name_ja := "古参太郎", main_affiliation_job_title_ja := "教授" }

def c6_env : Env :=
  { dummy_env with
      keyword_rows := fun _ _ _ =>
        .ok [{ record := c6_young_record, relevance_score := 8 },
             { record := c6_senior_record, relevance_score := 4 }] }

def c6_req : SearchRequest :=
  { query := "助教", method := "keyword", max_results := 10,
    young_researcher_filter := true }

/-- The envelope `perform_real_search` produces for `c6_env`/`c6_req`. -/
def c6_envelope : SuccessEnvelope :=
  { query := "助教"
    method := "keyword"
    evaluation_mode := "legacy"
    results := [{ record := c6_young_record, relevance_score := some 8,
                  is_young_researcher := true,
                  young_researcher_reasons := ["職位: 助教"] }]
    total := 1
    expanded_info := none }

/-- Summarization environment: Gemini Flash Lite initializes, call 0 succeeds,
call 1 hits the rate limit, call 2 fails generically. -/
def c7_env : Env :=
  { dummy_env with
      gemini_lite_ok := true
      generate_summary := fun idx _ =>
        if idx = 0 then .ok "AI研究の第一人者です。"
        else if idx = 1 then .error "429 Resource exhausted"
        else .error "network unreachable" }

def c7_results : List RankedResult :=
  [{ record := c6_young_record }, { record := c6_senior_record },
   { record := c2_record }]

def c3_env : Env :=
  { dummy_env with
      embed_query := fun _ => .ok [1, 2]
      vector_search := fun _ => .ok [{ record := c2_record, distance := 1/2 }] }

/-! ### Theorems -/

/-- `containsSub` decides the `List.IsInfix` relation. -/
theorem containsSub_iff (needle hay : List Char) :
    containsSub needle hay = true ↔ needle <:+: hay := by
  unfold containsSub
  rw [List.any_eq_true]
  constructor
  · rintro ⟨t, ht, hp⟩
    rw [List.mem_tails] at ht
    rw [List.isPrefixOf_iff_prefix] at hp
    exact List.infix_iff_prefix_suffix.mpr ⟨t, hp, ht⟩
  · intro h
    obtain ⟨t, hp, ht⟩ := List.infix_iff_prefix_suffix.mp h
    exact ⟨t, (List.mem_tails t hay).mpr ht, List.isPrefixOf_iff_prefix.mpr hp⟩

/-- One-step unfolding of `likeMatchF` on a non-empty pattern (definitional). -/
theorem likeMatchF_cons (f : Nat) (p : Char) (ps s : List Char) :
    likeMatchF (f + 1) (p :: ps) s =
      (if p = '%' then
        likeMatchF f ps s ||
          (match s with
           | [] => false
           | _ :: s2 => likeMatchF f (p :: ps) s2)
      else if p = '_' then
        match s with
        | [] => false
        | _ :: s2 => likeMatchF f ps s2
      else if p = '\\' then
        match ps, s with
        | c :: ps2, d :: s2 => d == c && likeMatchF f ps2 s2
        | _, _ => false
      else
        match s with
        | [] => false
        | d :: s2 => d == p && likeMatchF f ps s2) := rfl

/-- The fuel argument is irrelevant as long as it exceeds
`pattern.length + subject.length`. -/
theorem likeMatchF_congr :
    ∀ f g p s, p.length + s.length < f → p.length + s.length < g →
      likeMatchF f p s = likeMatchF g p s := by
  intro f
  induction f with
  | zero => intro g p s hf hg; exact absurd hf (by omega)
  | succ f ih =>
    intro g p s hf hg
    cases g with
    | zero => exact absurd hg (by omega)
    | succ g =>
      cases p with
      | nil => rfl
      | cons p ps =>
        simp only [List.length_cons] at hf hg
        rw [likeMatchF_cons, likeMatchF_cons]
        by_cases h1 : p = '%'
        · simp only [if_pos h1]
          have e1 : likeMatchF f ps s = likeMatchF g ps s :=
            ih g ps s (by omega) (by omega)
          rw [e1]
          cases s with
          | nil => rfl
          | cons d s2 =>
            have e2 : likeMatchF f (p :: ps) s2 = likeMatchF g (p :: ps) s2 :=
              ih g (p :: ps) s2 (by simp at hf ⊢; omega) (by simp at hg ⊢; omega)
            dsimp only
            rw [e2]
        · by_cases h2 : p = '_'
          · simp only [if_neg h1, if_pos h2]
            cases s with
            | nil => rfl
            | cons d s2 =>
              simp only [List.length_cons] at hf hg
              dsimp only
              exact ih g ps s2 (by omega) (by omega)
          · by_cases h3 : p = '\\'
            · simp only [if_neg h1, if_neg h2, if_pos h3]
              cases ps with
              | nil => cases s <;> rfl
              | cons c ps2 =>
                cases s with
                | nil => rfl
                | cons d s2 =>
                  simp only [List.length_cons] at hf hg
                  have e : likeMatchF f ps2 s2 = likeMatchF g ps2 s2 :=
                    ih g ps2 s2 (by omega) (by omega)
                  dsimp only
                  rw [e]
            · simp only [if_neg h1, if_neg h2, if_neg h3]
              cases s with
              | nil => rfl
              | cons d s2 =>
                simp only [List.length_cons] at hf hg
                have e : likeMatchF f ps s2 = likeMatchF g ps s2 :=
                  ih g ps s2 (by omega) (by omega)
                dsimp only
                rw [e]

theorem likeMatch_pct (ps s : List Char) :
    likeMatch ('%' :: ps) s =
      (likeMatch ps s ||
        (match s with
         | [] => false
         | _ :: s2 => likeMatch ('%' :: ps) s2)) := by
  unfold likeMatch
  have hn : ('%' :: ps).length + s.length + 1 = (ps.length + 1 + s.length) + 1 := by
    simp only [List.length_cons]
  rw [hn, likeMatchF_cons, if_pos rfl]
  have e1 : likeMatchF (ps.length + 1 + s.length) ps s =
      likeMatchF (ps.length + s.length + 1) ps s :=
    likeMatchF_congr _ _ ps s (by omega) (by omega)
  rw [e1]
  cases s with
  | nil => rfl
  | cons d s2 =>
    have e2 : likeMatchF (ps.length + 1 + (d :: s2).length) ('%' :: ps) s2 =
        likeMatchF (('%' :: ps).length + s2.length + 1) ('%' :: ps) s2 :=
      likeMatchF_congr _ _ ('%' :: ps) s2 (by simp) (by simp)
    dsimp only
    rw [e2]

theorem likeMatch_lit (c : Char) (ps s : List Char)
    (h1 : c ≠ '%') (h2 : c ≠ '_') (h3 : c ≠ '\\') :
    likeMatch (c :: ps) s =
      (match s with
       | [] => false
       | d :: s2 => d == c && likeMatch ps s2) := by
  unfold likeMatch
  have hn : (c :: ps).length + s.length + 1 = (ps.length + 1 + s.length) + 1 := by
    simp only [List.length_cons]
  rw [hn, likeMatchF_cons, if_neg h1, if_neg h2, if_neg h3]
  cases s with
  | nil => rfl
  | cons d s2 =>
    have e : likeMatchF (ps.length + 1 + (d :: s2).length) ps s2 =
        likeMatchF (ps.length + s2.length + 1) ps s2 :=
      likeMatchF_congr _ _ ps s2 (by simp; omega) (by omega)
    dsimp only
    rw [e]

theorem likeMatch_pct_nil (s : List Char) : likeMatch ['%'] s = true := by
  induction s with
  | nil => rfl
  | cons d s2 ih =>
    rw [likeMatch_pct]
    simp [ih]

theorem beq_comm_char (d c : Char) : (d == c) = (c == d) := by
  by_cases h : d = c
  · subst h; rfl
  · have h2 : ¬c = d := fun he => h he.symm
    simp [h, h2]

theorem likeMatch_clean_append (t : List Char) (ht : noLikeMeta t) :
    ∀ s, likeMatch (t ++ ['%']) s = t.isPrefixOf s := by
  induction t with
  | nil =>
    intro s
    simpa [List.isPrefixOf] using likeMatch_pct_nil s
  | cons c t ih =>
    intro s
    obtain ⟨h1, h2, h3⟩ := ht c (by simp)
    have ht' : noLikeMeta t := fun d hd => ht d (by simp [hd])
    cases s with
    | nil => rw [List.cons_append, likeMatch_lit c _ _ h1 h2 h3]; rfl
    | cons d s' =>
      rw [List.cons_append, likeMatch_lit c _ _ h1 h2 h3]
      show (d == c && likeMatch (t ++ ['%']) s') = List.isPrefixOf (c :: t) (d :: s')
      rw [ih ht', beq_comm_char]
      rfl

theorem likePercents_eq_containsSub (t s : List Char) (ht : noLikeMeta t) :
    likePercents t s = containsSub t s := by
  unfold likePercents containsSub
  induction s with
  | nil =>
    rw [likeMatch_pct]
    show (likeMatch (t ++ ['%']) [] || false) = _
    rw [Bool.or_false, likeMatch_clean_append t ht]
    simp [List.tails]
  | cons d s' ih =>
    rw [likeMatch_pct]
    show (likeMatch (t ++ ['%']) (d :: s') || likeMatch ('%' :: (t ++ ['%'])) s') = _
    rw [likeMatch_clean_append t ht, ih, List.tails_cons, List.any_cons]

/-! ### Supporting lemmas -/

theorem add_summaries_from_length (env : Env) (q : String) :
    ∀ (k : Nat) (rs : List RankedResult),
      (add_summaries_from env q k rs).length = rs.length := by
  intro k rs
  induction rs generalizing k with
  | nil => rfl
  | cons r rs ih => simp [add_summaries_from, ih]

theorem add_summaries_from_getElem (env : Env) (q : String) :
    ∀ (rs : List RankedResult) (k i : Nat),
      (add_summaries_from env q k rs)[i]? =
        (rs[i]?).map (fun r =>
          { r with llm_summary := some (item_summary env q (k + i) r) }) := by
  intro rs
  induction rs with
  | nil => intro k i; simp [add_summaries_from]
  | cons r rs ih =>
    intro k i
    cases i with
    | zero => simp [add_summaries_from]
    | succ i =>
      simp only [add_summaries_from, List.getElem?_cons_succ]
      rw [ih (k + 1) i]
      have : k + 1 + i = k + (i + 1) := by omega
      rw [this]

theorem add_llm_summaries_eq_from (env : Env) (rs : List RankedResult)
    (q : String) (h : env.gemini_lite_ok = true ∨ env.bison_ok = true) :
    add_llm_summaries env rs q = add_summaries_from env q 0 rs := by
  unfold add_llm_summaries
  rcases h with h | h
  · rw [if_pos h]
  · by_cases hg : env.gemini_lite_ok
    · rw [if_pos hg]
    · rw [if_neg hg, if_pos h]

theorem mem_add_summaries_from (env : Env) (q : String) :
    ∀ (k : Nat) (rs : List RankedResult) (x : RankedResult),
      x ∈ add_summaries_from env q k rs →
      ∃ r ∈ rs, x.is_young_researcher = r.is_young_researcher := by
  intro k rs
  induction rs generalizing k with
  | nil => intro x hx; cases hx
  | cons r rs ih =>
    intro x hx
    rcases List.mem_cons.mp hx with he | hx2
    · exact ⟨r, by simp, by rw [he]⟩
    · obtain ⟨r2, hr2, hee⟩ := ih (k + 1) x hx2
      exact ⟨r2, List.mem_cons_of_mem r hr2, hee⟩

theorem mem_add_llm_summaries (env : Env) (rs : List RankedResult) (q : String)
    (x : RankedResult) (hx : x ∈ add_llm_summaries env rs q) :
    ∃ r ∈ rs, x.is_young_researcher = r.is_young_researcher := by
  unfold add_llm_summaries at hx
  by_cases hg : env.gemini_lite_ok
  · rw [if_pos hg] at hx; exact mem_add_summaries_from env q 0 rs x hx
  · rw [if_neg hg] at hx
    by_cases hb : env.bison_ok
    · rw [if_pos hb] at hx; exact mem_add_summaries_from env q 0 rs x hx
    · rw [if_neg hb] at hx; exact ⟨x, hx, rfl⟩

theorem dedup_append_split :
    ∀ (ks acc : List String), ∃ rest,
      dedup_append acc ks = acc ++ rest ∧ rest.Sublist ks := by
  intro ks
  induction ks with
  | nil => intro acc; exact ⟨[], by simp [dedup_append]⟩
  | cons k ks ih =>
    intro acc
    by_cases h : k ∈ acc
    · obtain ⟨rest, he, hs⟩ := ih acc
      exact ⟨rest, by simp [dedup_append, h, he], hs.cons k⟩
    · obtain ⟨rest, he, hs⟩ := ih (acc ++ [k])
      refine ⟨k :: rest, ?_, hs.cons₂ k⟩
      simp only [dedup_append, if_neg h]
      rw [he, List.append_assoc]
      rfl

theorem dedup_append_nodup :
    ∀ (ks acc : List String), acc.Nodup → (dedup_append acc ks).Nodup := by
  intro ks
  induction ks with
  | nil => intro acc h; simpa [dedup_append] using h
  | cons k ks ih =>
    intro acc hacc
    by_cases h : k ∈ acc
    · simpa [dedup_append, h] using ih acc hacc
    · simp only [dedup_append, if_neg h]
      refine ih (acc ++ [k]) ?_
      rw [List.nodup_append]
      exact ⟨hacc, List.nodup_singleton k,
        fun a ha hb => h (by rwa [List.mem_singleton.mp hb] at ha)⟩

theorem dedup_append_mem_left (ks acc : List String) (x : String)
    (hx : x ∈ acc) : x ∈ dedup_append acc ks := by
  obtain ⟨rest, hsp, _⟩ := dedup_append_split ks acc
  rw [hsp]
  exact List.mem_append_left rest hx

theorem dedup_append_mem_right :
    ∀ (ks acc : List String) (x : String), x ∈ ks → x ∈ dedup_append acc ks := by
  intro ks
  induction ks with
  | nil => intro acc x hx; cases hx
  | cons k ks ih =>
    intro acc x hx
    by_cases h : k ∈ acc
    · simp only [dedup_append, if_pos h]
      rcases List.mem_cons.mp hx with he | hx2
      · exact dedup_append_mem_left ks acc x (by rw [he]; exact h)
      · exact ih acc x hx2
    · simp only [dedup_append, if_neg h]
      rcases List.mem_cons.mp hx with he | hx2
      · exact dedup_append_mem_left ks (acc ++ [k]) x
          (by rw [he]; exact List.mem_append_right acc (by simp))
      · exact ih (acc ++ [k]) x hx2

theorem perform_success_results (env : Env) (year : Int) (req : SearchRequest)
    (out : SuccessEnvelope) (h : perform_real_search env year req = .success out) :
    ∃ results0 : List RankedResult,
      out.results =
        (if req.use_llm_summary &&
            !(if req.young_researcher_filter && !results0.isEmpty then
                young_filter results0
              else results0).isEmpty && env.vertex_ai_ready then
          add_llm_summaries env
            (if req.young_researcher_filter && !results0.isEmpty then
              young_filter results0
            else results0) req.query
        else
          (if req.young_researcher_filter && !results0.isEmpty then
            young_filter results0
          else results0)) := by
  unfold perform_real_search at h
  by_cases hbq : env.bq_available = false
  · rw [if_pos hbq] at h; cases h
  · rw [if_neg hbq] at h
    simp only [] at h
    split at h
    · cases h
    · rename_i results0 heq
      refine ⟨results0, ?_⟩
      cases h
      rfl

theorem fieldLike_clean (kw f : String) (h : noLikeMeta (lower kw)) :
    fieldLike kw f = containsSub (lower kw) (lower f) :=
  likePercents_eq_containsSub _ _ h

/-- C9: the dimension-normalization step always yields a vector of length
exactly 768 — truncated when longer, right-padded with zeros when shorter,
unchanged when equal. -/
theorem c9_dimension_normalization (v : List Rat) :
    (adjust_embedding_dimensions v).length = expected_dimensions ∧
    (v.length > expected_dimensions →
      adjust_embedding_dimensions v = v.take expected_dimensions) ∧
    (v.length < expected_dimensions →
      adjust_embedding_dimensions v =
        v ++ List.replicate (expected_dimensions - v.length) 0) ∧
    (v.length = expected_dimensions → adjust_embedding_dimensions v = v) := by
  unfold adjust_embedding_dimensions
  by_cases h1 : v.length = expected_dimensions
  · rw [if_pos h1]
    exact ⟨h1, fun h => absurd h (by omega), fun h => absurd h (by omega),
      fun _ => rfl⟩
  · rw [if_neg h1]
    by_cases h2 : v.length > expected_dimensions
    · rw [if_pos h2]
      refine ⟨?_, fun _ => rfl, fun h => absurd h (by omega), fun h => absurd h h1⟩
      rw [List.length_take]
      omega
    · rw [if_neg h2]
      refine ⟨?_, fun h => absurd h h2, fun _ => rfl, fun h => absurd h h1⟩
      rw [List.length_append, List.length_replicate]
      omega

/-- C9 witness: a three-element embedding is right-padded to length 768. -/
theorem c9_witness :
    [(1 : Rat), 2, 3].length < expected_dimensions ∧
    adjust_embedding_dimensions [(1 : Rat), 2, 3] =
      [(1 : Rat), 2, 3] ++
        List.replicate (expected_dimensions - [(1 : Rat), 2, 3].length) 0 :=
  ⟨by decide, (c9_dimension_normalization [(1 : Rat), 2, 3]).2.2.1 (by decide)⟩

/-- C6: the young-researcher post-filter never lengthens the list, keeps only
flagged results, and performs no backfill (the output is a sublist of the
input); end to end, every result of a filtered search carries
`is_young_researcher = true`. -/
theorem c6_young_filter_post :
    (∀ rs : List RankedResult,
      (young_filter rs).length ≤ rs.length ∧
      (∀ r ∈ young_filter rs, r.is_young_researcher = true) ∧
      (young_filter rs).Sublist rs) ∧
    (∀ (env : Env) (year : Int) (req : SearchRequest) (out : SuccessEnvelope),
      req.young_researcher_filter = true →
      perform_real_search env year req = .success out →
      ∀ r ∈ out.results, r.is_young_researcher = true) := by
  constructor
  · intro rs
    refine ⟨List.length_filter_le _ _, ?_, List.filter_sublist rs⟩
    intro r hr
    exact (List.mem_filter.mp hr).2
  · intro env year req out hflag hsucc r hr
    obtain ⟨results0, he⟩ := perform_success_results env year req out hsucc
    have hmem1 : ∀ x,
        x ∈ (if req.young_researcher_filter && !results0.isEmpty then
              young_filter results0
            else results0) →
        x.is_young_researcher = true := by
      intro x hx
      by_cases hc : (req.young_researcher_filter && !results0.isEmpty) = true
      · rw [if_pos hc] at hx
        exact (List.mem_filter.mp hx).2
      · rw [if_neg hc] at hx
        rw [hflag, Bool.true_and] at hc
        have h0 : results0 = [] := by
          cases results0 with
          | nil => rfl
          | cons a l => simp at hc
        rw [h0] at hx
        cases hx
    rw [he] at hr
    by_cases hsum : (req.use_llm_summary &&
        !(if req.young_researcher_filter && !results0.isEmpty then
            young_filter results0
          else results0).isEmpty && env.vertex_ai_ready) = true
    · rw [if_pos hsum] at hr
      obtain ⟨r2, hr2, hee⟩ := mem_add_llm_summaries env _ req.query r hr
      rw [hee]
      exact hmem1 r2 hr2
    · rw [if_neg hsum] at hr
      exact hmem1 r hr

/-- C6 witness: a two-candidate keyword search with the filter on returns
exactly the flagged candidate. -/
theorem c6_witness :
    perform_real_search c6_env 2025 c6_req = .success c6_envelope ∧
    ∀ r ∈ c6_envelope.results, r.is_young_researcher = true :=
  ⟨by decide,
   c6_young_filter_post.2 c6_env 2025 c6_req c6_envelope rfl (by decide)⟩

/-- C3 counterexample: the warehouse-native nearest-neighbor request built for
limit 10 asks for `top_k = 10`, not `max(50, 10 × 5) = 50`. -/
theorem c3_counterexample :
    (build_vector_search_request [] 10 none).top_k ≠ max 50 (10 * 5) := by
  decide

/-- C3 amended: the native `VECTOR_SEARCH` request carries `top_k = limit`
exactly; the `limit × 5` head-room factor exists only in the realtime
fallback's candidate prefetch (`LIMIT limit * 5`); and the native rows are
returned whenever embedding and warehouse search succeed. -/
theorem c3_top_k_amended :
    (∀ (emb : List Rat) (L : Nat) (uf : Option (List String)),
      (build_vector_search_request emb L uf).top_k = L) ∧
    (∀ (q : String) (L : Nat) (uf : Option (List String)),
      (build_realtime_fetch_request q L uf).limit = L * 5) ∧
    (∀ (env : Env) (year : Int) (q : String) (L : Nat)
        (uf : Option (List String)) (emb : List Rat) (rows : List VectorRow),
      env.embed_query q = .ok emb →
      env.vector_search
          (build_vector_search_request (adjust_embedding_dimensions emb) L uf) =
        .ok rows →
      semantic_search_with_embedding env year q L uf =
        .ok (rows.map (vector_annotate year))) := by
  refine ⟨fun _ _ _ => rfl, fun _ _ _ => rfl, ?_⟩
  intro env year q L uf emb rows hemb hvs
  unfold semantic_search_with_embedding
  rw [hemb]
  simp only [hvs]

/-- C3 witness: with a working embedding and warehouse, the pipeline returns
the annotated native rows. -/
theorem c3_witness :
    semantic_search_with_embedding c3_env 2025 "AI" 7 none =
      .ok ([{ record := c2_record, distance := 1/2 }].map (vector_annotate 2025)) :=
  c3_top_k_amended.2.2 c3_env 2025 "AI" 7 none [1, 2]
    [{ record := c2_record, distance := 1/2 }] rfl rfl

/-- C5 counterexample: the token `a%b` (a legal whitespace-split token) is
scored by `LIKE` wildcard matching, not by substring containment: the code's
score is 8 on a record whose keyword field is `aXb`, while the
substring-containment score of the claim is 0. -/
theorem c5_counterexample :
    relevance_score c5_record (query_keywords "a%b") = 8 ∧
    relevance_score_spec c5_record (query_keywords "a%b") = 0 ∧
    relevance_score c5_record (query_keywords "a%b") ≠
      relevance_score_spec c5_record (query_keywords "a%b") := by
  decide

/-- C5 amended: the score is the sum over tokens of per-field weights awarded
by `LIKE '%token%'` (name 10, keywords 8, fields 6, paper 5, project 5,
biography 4); for tokens whose lowered form holds no `LIKE` metacharacter
(`%`, `_`, `\`) this coincides with case-insensitive substring containment,
and the spec's two-token example scores 16. -/
theorem c5_relevance_amended :
    (∀ (r : ResearcherRecord) (kws : List String),
      (∀ kw ∈ kws, noLikeMeta (lower kw)) →
      relevance_score r kws = relevance_score_spec r kws) ∧
    relevance_score c5_example_record (query_keywords "machine learning") = 16 := by
  constructor
  · intro r kws hclean
    unfold relevance_score relevance_score_spec
    refine congrArg List.sum (List.map_congr_left ?_)
    intro kw hkw
    have hkc := hclean kw hkw
    unfold relevance_score_token relevance_score_token_spec
    rw [fieldLike_clean kw r.name_ja hkc,
      fieldLike_clean kw r.research_keywords_ja hkc,
      fieldLike_clean kw r.research_fields_ja hkc,
      fieldLike_clean kw r.paper_title_ja_first hkc,
      fieldLike_clean kw r.project_title_ja_first hkc,
      fieldLike_clean kw r.profile_ja hkc]
  · decide

/-- C5 witness: a clean one-token query scores identically under `LIKE` and
substring containment. -/
theorem c5_witness :
    relevance_score c5_example_record ["machine"] =
      relevance_score_spec c5_example_record ["machine"] :=
  c5_relevance_amended.1 c5_example_record ["machine"] (by decide)

/-- C4 counterexample: when the generation service answers "robotics, AI" for
the query "AI", the original query is already among the parsed keywords, so
nothing is prepended and the first list element is "robotics", not the query. -/
theorem c4_counterexample :
    (expand_query_with_llm c4_env "AI").expanded_keywords = ["robotics", "AI"] ∧
    (expand_query_with_llm c4_env "AI").expanded_keywords.head? ≠ some "AI" := by
  decide

/-- C4 amended: the keyword list is the order-preserving dedup of the parsed
comma-separated response with the query prepended only when absent; the query
is always an element (and is first whenever it is absent from the parsed
response), and the expanded query joins the first 5 elements with spaces. -/
theorem c4_expansion_amended (query text : String) :
    query ∈ gemini_final_keywords query text ∧
    (gemini_final_keywords query text).Nodup ∧
    (query ∉ parse_comma_keywords text →
      (gemini_final_keywords query text).head? = some query) ∧
    (∃ rest, gemini_final_keywords query text =
        (if query ∈ parse_comma_keywords text then [] else [query]) ++ rest ∧
      rest.Sublist (parse_comma_keywords text)) ∧
    (∀ (env : Env) (t0 : String),
      env.gemini_generate (gemini_expand_prompt query) = .ok t0 →
      pyStrip t0 = text → text ≠ "" →
      expand_query_with_llm env query =
        { original_query := query
          expanded_keywords := gemini_final_keywords query text
          expanded_query :=
            String.intercalate " " ((gemini_final_keywords query text).take 5) }) := by
  refine ⟨?_, ?_, ?_, ?_, ?_⟩
  · by_cases hq : query ∈ parse_comma_keywords text
    · simp only [gemini_final_keywords, if_pos hq]
      exact dedup_append_mem_right _ [] query hq
    · simp only [gemini_final_keywords, if_neg hq]
      exact dedup_append_mem_left _ [query] query (by simp)
  · by_cases hq : query ∈ parse_comma_keywords text
    · simp only [gemini_final_keywords, if_pos hq]
      exact dedup_append_nodup _ [] List.nodup_nil
    · simp only [gemini_final_keywords, if_neg hq]
      exact dedup_append_nodup _ [query] (List.nodup_singleton query)
  · intro hq
    simp only [gemini_final_keywords, if_neg hq]
    obtain ⟨rest, hsp, _⟩ := dedup_append_split (parse_comma_keywords text) [query]
    rw [hsp]
    rfl
  · by_cases hq : query ∈ parse_comma_keywords text
    · simp only [gemini_final_keywords, if_pos hq]
      obtain ⟨rest, hsp, hsub⟩ := dedup_append_split (parse_comma_keywords text) []
      exact ⟨rest, by rw [hsp], hsub⟩
    · simp only [gemini_final_keywords, if_neg hq]
      obtain ⟨rest, hsp, hsub⟩ := dedup_append_split (parse_comma_keywords text) [query]
      exact ⟨rest, by rw [hsp], hsub⟩
  · intro env t0 henv ht0 hne
    unfold expand_query_with_llm
    rw [henv]
    simp only [ht0]
    rw [if_pos hne]

/-- C4 witness: an answer missing the original query puts the query first and
keeps the parsed keywords deduplicated in order. -/
theorem c4_witness :
    "AI" ∈ gemini_final_keywords "AI" "robotics, vision" ∧
    (gemini_final_keywords "AI" "robotics, vision").head? = some "AI" :=
  ⟨(c4_expansion_amended "AI" "robotics, vision").1,
   (c4_expansion_amended "AI" "robotics, vision").2.2.1 (by decide)⟩

/-- C8: when the Gemini call yields nothing usable and — if it raised — the
text-bison fallback also fails or yields nothing usable, the expander returns
exactly the degenerate result (original query as sole keyword, expanded query
equal to the original); the embedding is a total function, mirroring that the
Python function never raises to its caller. -/
theorem c8_expansion_failure (env : Env) (query : String)
    (hg : ∀ t, env.gemini_generate (gemini_expand_prompt query) = .ok t →
      pyStrip t = "")
    (hb : ∀ e, env.gemini_generate (gemini_expand_prompt query) = .error e →
      ∀ t, env.bison_generate (bison_expand_prompt query) = .ok t →
        pyStrip t = "") :
    expand_query_with_llm env query = degenerate_expansion query ∧
    degenerate_expansion query =
      { original_query := query, expanded_keywords := [query],
        expanded_query := query } := by
  refine ⟨?_, rfl⟩
  unfold expand_query_with_llm
  cases hge : env.gemini_generate (gemini_expand_prompt query) with
  | ok t0 =>
    have h0 := hg t0 hge
    simp [h0]
  | error e =>
    cases hbe : env.bison_generate (bison_expand_prompt query) with
    | ok t0 =>
      have h0 := hb e hge t0 hbe
      simp [h0]
    | error e2 => simp

/-- C8 witness: with both generation services failing, expanding "AI" is
degenerate. -/
theorem c8_witness :
    expand_query_with_llm dummy_env "AI" = degenerate_expansion "AI" :=
  (c8_expansion_failure dummy_env "AI" (fun t h => Except.noConfusion h)
    (fun e _ t h => Except.noConfusion h)).1

/-- C7: with a model available, summarization preserves the list length, and a
per-item failure only determines that item's summary — the rate-limit sentinel
when the message signals 429/resource exhaustion, the generic query-referencing
fallback otherwise; the other items are processed independently. -/
theorem c7_summary_error_isolation (env : Env) (rs : List RankedResult)
    (q : String) (hmodel : env.gemini_lite_ok = true ∨ env.bison_ok = true) :
    (add_llm_summaries env rs q).length = rs.length ∧
    (∀ (i : Nat) (hi : i < rs.length) (msg : String),
      env.generate_summary i (summary_prompt q (rs.get ⟨i, hi⟩)) = .error msg →
      (add_llm_summaries env rs q)[i]? =
        some { rs.get ⟨i, hi⟩ with
          llm_summary := some
            (if hasSub msg "429" || hasSub msg "Resource exhausted" then
              rate_limit_summary
            else generic_summary q) }) := by
  rw [add_llm_summaries_eq_from env rs q hmodel]
  refine ⟨add_summaries_from_length env q 0 rs, ?_⟩
  intro i hi msg hmsg
  rw [add_summaries_from_getElem env q rs 0 i]
  have hget : rs[i]? = some (rs.get ⟨i, hi⟩) := by
    rw [List.getElem?_eq_getElem hi]
    rfl
  rw [hget, Option.map_some']
  simp only [Nat.zero_add, item_summary, hmsg]

/-- C7 witness: call 1 of 3 hits a 429 rate limit and only that item gets the
sentinel. -/
theorem c7_witness :
    (add_llm_summaries c7_env c7_results "AI")[1]? =
      some { c7_results.get ⟨1, by decide⟩ with
        llm_summary := some
          (if hasSub "429 Resource exhausted" "429" ||
              hasSub "429 Resource exhausted" "Resource exhausted" then
            rate_limit_summary
          else generic_summary "AI") } :=
  (c7_summary_error_isolation c7_env c7_results "AI" (Or.inl rfl)).2 1 (by decide)
    "429 Resource exhausted" rfl

/-- C10: the summarizer returns a list of the same length and order, each
output record is the input record with only `llm_summary` set; on total
model-initialization failure the input list is returned unchanged. -/
theorem c10_summary_frame (env : Env) (rs : List RankedResult) (q : String) :
    (add_llm_summaries env rs q).length = rs.length ∧
    (∀ i : Nat, (add_llm_summaries env rs q)[i]? =
      (rs[i]?).map (fun r =>
        if env.gemini_lite_ok || env.bison_ok then
          { r with llm_summary := some (item_summary env q i r) }
        else r)) ∧
    (env.gemini_lite_ok = false ∧ env.bison_ok = false →
      add_llm_summaries env rs q = rs) := by
  by_cases hg : env.gemini_lite_ok = true
  · rw [add_llm_summaries_eq_from env rs q (Or.inl hg)]
    refine ⟨add_summaries_from_length env q 0 rs, ?_, ?_⟩
    · intro i
      rw [add_summaries_from_getElem env q rs 0 i]
      simp [hg, Nat.zero_add]
    · rintro ⟨hg2, _⟩
      rw [hg] at hg2
      cases hg2
  · by_cases hb : env.bison_ok = true
    · rw [add_llm_summaries_eq_from env rs q (Or.inr hb)]
      have hgf : env.gemini_lite_ok = false := by
        revert hg; cases env.gemini_lite_ok <;> simp
      refine ⟨add_summaries_from_length env q 0 rs, ?_, ?_⟩
      · intro i
        rw [add_summaries_from_getElem env q rs 0 i]
        simp [hgf, hb, Nat.zero_add]
      · rintro ⟨_, hb2⟩
        rw [hb] at hb2
        cases hb2
    · have hgf : env.gemini_lite_ok = false := by
        revert hg; cases env.gemini_lite_ok <;> simp
      have hbf : env.bison_ok = false := by
        revert hb; cases env.bison_ok <;> simp
      unfold add_llm_summaries
      rw [hgf, hbf]
      refine ⟨by simp, ?_, fun _ => by simp⟩
      intro i
      simp [hgf, hbf]

/-- C10 witness: with neither model constructible, the list comes back
unchanged. -/
theorem c10_witness :
    add_llm_summaries dummy_env c7_results "AI" = c7_results :=
  (c10_summary_frame dummy_env c7_results "AI").2.2 ⟨rfl, rfl⟩

/-- C1 counterexample: `c1_record` carries the senior marker "professor" in a
job-title field together with the early-career marker 若手 in the biography,
yet the classifier returns `(true, ["キーワード: 若手"])` — the senior marker
does not trigger an exclusion, and the early-career evidence survives, so the
claimed `(False, [exclusion reason])` shape is wrong. -/
theorem c1_counterexample :
    is_young_researcher 2025 c1_record = (true, ["キーワード: 若手"]) ∧
    (is_young_researcher 2025 c1_record).1 ≠ false := by
  decide

/-- C1 amended: the exclusion check uses the fixed keyword list
退職/名誉/元教授/元所長/顧問/理事長/学長/総長 over the biography and the
Japanese job columns, runs after all evidence accumulation, and when it fires
it overrides the verdict with exactly one exclusion reason, discarding every
accumulated early-career reason; senior markers such as "professor" only
suppress job-title evidence inside stages B/C and never exclude. -/
theorem c1_exclusion_amended (current_year : Int) (r : ResearcherRecord)
    (kw : String) (h : exclusion_find r = some kw) :
    is_young_researcher current_year r = (false, ["除外条件: " ++ kw]) := by
  unfold is_young_researcher
  rw [h]

/-- C1 witness: a biography holding both 名誉教授 and 若手 is excluded with the
single reason 名誉, the accumulated 若手 evidence being discarded. -/
theorem c1_witness :
    exclusion_find { profile_ja := "名誉教授、若手" } = some "名誉" ∧
    is_young_researcher 2025 { profile_ja := "名誉教授、若手" } =
      (false, ["除外条件: " ++ "名誉"]) :=
  ⟨by decide, c1_exclusion_amended 2025 _ "名誉" (by decide)⟩

/-- C2 counterexample: embedding throws on the first call while Vertex AI is
reported available; the envelope is a success whose results come from the
keyword path, but its `method` field still reads "semantic" — it is not
coerced to "keyword". -/
theorem c2_counterexample :
    perform_real_search c2_env 2025 c2_req =
      .success
        { query := "AI", method := "semantic", evaluation_mode := "legacy",
          results := [c2_result], total := 1, expanded_info := none } ∧
    "semantic" ≠ "keyword" := by
  constructor
  · decide
  · decide

/-- C2 amended: when the embedding call raises but the Vertex AI capability is
reported available, the search returns a non-error envelope whose results come
from the lexical keyword path, while the `method` field still reports
"semantic"; the silent coercion of `method` to "keyword" happens only in the
capability-unavailable branch, before retrieval. -/
theorem c2_embedding_fallback_amended (env : Env) (year : Int)
    (req : SearchRequest) (emsg : String) (rows : List KeywordRow)
    (hbq : env.bq_available = true) (hv : env.vertex_ai_ready = true)
    (hm : req.method = "semantic")
    (hexp : req.use_llm_expansion = false) (hsum : req.use_llm_summary = false)
    (hfil : req.young_researcher_filter = false)
    (hemb : env.embed_query (pyStrip req.query) = .error emsg)
    (hrows : env.keyword_rows (pyStrip req.query) req.max_results
      req.university_filter = .ok rows) :
    perform_real_search env year req =
      .success
        { query := req.query, method := "semantic", evaluation_mode := "legacy",
          results := rows.map (keyword_annotate year),
          total := (rows.map (keyword_annotate year)).length,
          expanded_info := none } := by
  simp only [perform_real_search, semantic_search_with_embedding, keyword_search]
  simp [hbq, hv, hm, hexp, hsum, hfil]
  rw [hemb]
  rw [hrows]
  simp

/-- C2 witness: the amended behavior at a concrete environment and request. -/
theorem c2_witness :
    perform_real_search c2_env 2025
        { query := "ML", method := "semantic", max_results := 3 } =
      .success
        { query := "ML", method := "semantic", evaluation_mode := "legacy",
          results := [c2_row].map (keyword_annotate 2025),
          total := ([c2_row].map (keyword_annotate 2025)).length,
          expanded_info := none } :=
  c2_embedding_fallback_amended c2_env 2025
    { query := "ML", method := "semantic", max_results := 3 }
    "embedding failure" [c2_row] rfl rfl rfl rfl rfl rfl rfl rfl
